import Mathlib

/-!
Shallow embedding of the MuhsinAI backend core: the Schedule Validator,
the Scheduling-Intent Classifier, the Chat Orchestrator
(`app/services/openai_service.py`), the Statistics Aggregator and the
chat CRUD operations (`app/db/crud.py`, `app/api/chat.py`).

JSON-decoded Python values are modelled by the inductive `Json`
(numbers restricted to integers; Python dicts are insertion-ordered
association lists, as produced by `json.loads`).  Functions that can
raise a Python exception return `Option`/`Except`, with `none`/`error`
standing for the raised exception.
-/

namespace MuhsinAI

/-- A JSON-decoded Python value (`json.loads` output): `None`, `bool`,
`int`, `str`, `list`, or insertion-ordered `dict` with string keys. -/
inductive Json where
  | null : Json
  | bool : Bool → Json
  | num : Int → Json
  | str : String → Json
  | arr : List Json → Json
  | obj : List (String × Json) → Json
deriving Repr

/-- Python `d[k]` on a dict: value of the first binding of `k`. -/
def objGet : List (String × Json) → String → Option Json
  | [], _ => none
  | (k₁, v) :: rest, k => if k₁ = k then some v else objGet rest k

/-- Python `k in d` on a dict. -/
def objHas (kvs : List (String × Json)) (k : String) : Bool :=
  (objGet kvs k).isSome

/-- Python `d[k] = v` on a dict: replace the first binding of `k` in
place, or append a new binding at the end. -/
def objSet : List (String × Json) → String → Json → List (String × Json)
  | [], k, v => [(k, v)]
  | (k₁, v₁) :: rest, k, v =>
    if k₁ = k then (k, v) :: rest else (k₁, v₁) :: objSet rest k v

/-- Python `repr` of a string: quoted, with the common escapes
(backslash, quote, newline, carriage return, tab). -/
def pyStrRepr (s : String) : String :=
  let q : Char := if s.contains '\'' && !(s.contains '"') then '"' else '\''
  let esc : Char → String := fun c =>
    if c = '\\' then "\\\\"
    else if c = q then "\\" ++ q.toString
    else if c = '\n' then "\\n"
    else if c = '\r' then "\\r"
    else if c = '\t' then "\\t"
    else c.toString
  q.toString ++ String.join (s.toList.map esc) ++ q.toString

mutual

/-- Python `repr` of a JSON-decoded value (used for the elements of
lists and dicts inside `str`). -/
def pyRepr : Json → String
  | .null => "None"
  | .bool true => "True"
  | .bool false => "False"
  | .num n => toString n
  | .str s => pyStrRepr s
  | .arr xs => "[" ++ pyReprList xs ++ "]"
  | .obj kvs => "\x7b" ++ pyReprObj kvs ++ "\x7d"

/-- Comma-separated `repr`s of the elements of a Python list. -/
def pyReprList : List Json → String
  | [] => ""
  | [x] => pyRepr x
  | x :: y :: rest => pyRepr x ++ ", " ++ pyReprList (y :: rest)

/-- Comma-separated `key: value` `repr`s of the bindings of a dict. -/
def pyReprObj : List (String × Json) → String
  | [] => ""
  | [(k, v)] => pyStrRepr k ++ ": " ++ pyRepr v
  | (k, v) :: p :: rest => pyStrRepr k ++ ": " ++ pyRepr v ++ ", " ++ pyReprObj (p :: rest)

end

/-- Python `str` of a JSON-decoded value (`str(x)`): the string itself
for strings, `repr` otherwise. -/
def pyStr : Json → String
  | .str s => s
  | v => pyRepr v

/-- Valid schedule types (`valid_types` in `_validate_schedule_response`). -/
def validTypes : List String := ["daily", "weekly", "custom"]

/-- Valid event categories (`valid_categories`). -/
def validCategories : List String := ["work", "personal", "health", "education", "social"]

/-- Valid event priorities (`valid_priorities`). -/
def validPriorities : List String := ["high", "medium", "low"]

/-- The wholesale default date range
`{"start_date": today, "end_date": today + 1 day}`; the two dates are
parameters because they are read from the clock at validation time. -/
def defaultDateRange (today tomorrow : String) : Json :=
  .obj [("start_date", .str today), ("end_date", .str tomorrow)]

/-- `str(event.get(key, default))` where `default` is a string literal:
the Python `str` of the stored value, or the default when absent. -/
def eventField (kvs : List (String × Json)) (key dflt : String) : String :=
  match objGet kvs key with
  | some v => pyStr v
  | none => dflt

/-- The `validated_event` dict literal built by
`_validate_schedule_response` for one retained event. -/
def mkValidatedEvent (title desc st et date cat pri : String) : Json :=
  .obj [("title", .str title), ("description", .str desc),
        ("start_time", .str st), ("end_time", .str et),
        ("date", .str date), ("category", .str cat), ("priority", .str pri)]

/-- One iteration of the event loop of `_validate_schedule_response`:
drop the element unless it is a dict containing `"title"`, otherwise
coerce every field to text with the fixed defaults and force invalid
category/priority to `"personal"`/`"medium"`. -/
def validateEvent (today : String) : Json → Option Json
  | .obj kvs =>
    if objHas kvs "title" then
      some (mkValidatedEvent
        (eventField kvs "title" "Untitled Event")
        (eventField kvs "description" "")
        (eventField kvs "start_time" "09:00")
        (eventField kvs "end_time" "10:00")
        (eventField kvs "date" today)
        (if validCategories.contains (eventField kvs "category" "personal") then
          eventField kvs "category" "personal" else "personal")
        (if validPriorities.contains (eventField kvs "priority" "medium") then
          eventField kvs "priority" "medium" else "medium"))
    else none
  | _ => none

/-- First loop of `_validate_schedule_response`, `"schedule_type"`
iteration: insert the default when the field is missing. -/
def fillType (kvs : List (String × Json)) : List (String × Json) :=
  if objHas kvs "schedule_type" then kvs
  else objSet kvs "schedule_type" (.str "custom")

/-- First loop, `"date_range"` iteration. -/
def fillRange (today tomorrow : String) (kvs : List (String × Json)) :
    List (String × Json) :=
  if objHas kvs "date_range" then kvs
  else objSet kvs "date_range" (defaultDateRange today tomorrow)

/-- First loop, `"events"` iteration. -/
def fillEvents (kvs : List (String × Json)) : List (String × Json) :=
  if objHas kvs "events" then kvs else objSet kvs "events" (.arr [])

/-- First block of `_validate_schedule_response`: insert each missing
required field (`schedule_type`, `date_range`, `events`) with its
default, in that order. -/
def fillMissing (today tomorrow : String) (kvs : List (String × Json)) :
    List (String × Json) :=
  fillEvents (fillRange today tomorrow (fillType kvs))

/-- Python `schedule_data["schedule_type"] not in valid_types` is false
exactly when the value is one of the three strings. -/
def typeOk (v : Json) : Bool :=
  match v with
  | .str s => validTypes.contains s
  | _ => false

/-- `Validate schedule type` block: force `schedule_type` to
`"custom"` unless it is one of the valid types. -/
def fixType (kvs : List (String × Json)) : List (String × Json) :=
  if typeOk ((objGet kvs "schedule_type").getD .null) then kvs
  else objSet kvs "schedule_type" (.str "custom")

/-- `isinstance(date_range, dict) and "start_date" in date_range and
"end_date" in date_range`. -/
def dateRangeOk (v : Json) : Bool :=
  match v with
  | .obj d => objHas d "start_date" && objHas d "end_date"
  | _ => false

/-- `Validate date range` block: replace `date_range` wholesale with
the default when it is not a dict carrying both bounds. -/
def fixRange (today tomorrow : String) (kvs : List (String × Json)) :
    List (String × Json) :=
  if dateRangeOk ((objGet kvs "date_range").getD .null) then kvs
  else objSet kvs "date_range" (defaultDateRange today tomorrow)

/-- `if not isinstance(schedule_data["events"], list)` block. -/
def fixEventsList (kvs : List (String × Json)) : List (String × Json) :=
  match (objGet kvs "events").getD .null with
  | .arr _ => kvs
  | _ => objSet kvs "events" (.arr [])

/-- The event list read back for the validation loop. -/
def eventsOf (kvs : List (String × Json)) : List Json :=
  match (objGet kvs "events").getD .null with
  | .arr xs => xs
  | _ => []

/-- `Validate each event` loop plus the write-back
`schedule_data["events"] = validated_events`. -/
def repairEvents (today : String) (kvs : List (String × Json)) :
    List (String × Json) :=
  objSet kvs "events" (.arr ((eventsOf kvs).filterMap (validateEvent today)))

/-- `Ensure suggestions field exists` block: replace a missing or
non-list `suggestions` with the empty list. -/
def fixSuggestions (kvs : List (String × Json)) : List (String × Json) :=
  match objGet kvs "suggestions" with
  | some (.arr _) => kvs
  | _ => objSet kvs "suggestions" (.arr [])

/-- `OpenAIService._validate_schedule_response`, translated block by
block.  A non-dict argument makes the Python function raise a
`TypeError` (every non-dict fails one of its `in` / subscript
operations), modelled as `none`.  `today`/`tomorrow` are the clock
values `datetime.now().date()` and the next day, read at validation
time. -/
def validateScheduleResponse (today tomorrow : String) : Json → Option Json
  | .obj kvs =>
    some (.obj (fixSuggestions (repairEvents today
      (fixEventsList (fixRange today tomorrow
        (fixType (fillMissing today tomorrow kvs)))))))
  | _ => none

/-! ### Dictionary lemmas -/

theorem objGet_objSet_self (kvs : List (String × Json)) (k : String) (v : Json) :
    objGet (objSet kvs k v) k = some v := by
  induction kvs with
  | nil => simp [objSet, objGet]
  | cons p rest ih =>
    obtain ⟨k₁, v₁⟩ := p
    by_cases h : k₁ = k
    · simp [objSet, objGet, h]
    · simp [objSet, objGet, h, ih]

theorem objGet_objSet_ne (kvs : List (String × Json)) (k₁ k₂ : String) (v : Json)
    (h : k₁ ≠ k₂) : objGet (objSet kvs k₁ v) k₂ = objGet kvs k₂ := by
  induction kvs with
  | nil => simp [objSet, objGet, h]
  | cons p rest ih =>
    obtain ⟨k₀, v₀⟩ := p
    by_cases h₀ : k₀ = k₁
    · subst h₀; simp [objSet, objGet, h]
    · by_cases h₂ : k₀ = k₂
      · subst h₂
        simp [objSet, objGet, h₀]
      · simp [objSet, objGet, h₀, h₂, ih]

theorem objSet_eq_of_objGet (kvs : List (String × Json)) (k : String) (v : Json)
    (h : objGet kvs k = some v) : objSet kvs k v = kvs := by
  induction kvs with
  | nil => simp [objGet] at h
  | cons p rest ih =>
    obtain ⟨k₀, v₀⟩ := p
    by_cases h₀ : k₀ = k
    · subst h₀
      simp [objGet] at h
      simp [objSet, h]
    · simp [objGet, h₀] at h
      simp [objSet, h₀, ih h]

theorem objHas_objSet_self (kvs : List (String × Json)) (k : String) (v : Json) :
    objHas (objSet kvs k v) k = true := by
  simp [objHas, objGet_objSet_self]

theorem objHas_objSet_ne (kvs : List (String × Json)) (k₁ k₂ : String) (v : Json)
    (h : k₁ ≠ k₂) : objHas (objSet kvs k₁ v) k₂ = objHas kvs k₂ := by
  simp [objHas, objGet_objSet_ne _ _ _ _ h]

theorem objGet_isSome_of_objHas (kvs : List (String × Json)) (k : String)
    (h : objHas kvs k = true) : ∃ v, objGet kvs k = some v := by
  cases h₀ : objGet kvs k with
  | none => simp [objHas, h₀] at h
  | some v => exact ⟨v, rfl⟩

/-! ### Shape of the validated output -/

theorem typeOk_objHas (kvs : List (String × Json))
    (h : typeOk ((objGet kvs "schedule_type").getD .null) = true) :
    objHas kvs "schedule_type" = true := by
  cases h₀ : objGet kvs "schedule_type" with
  | none => rw [h₀] at h; simp [typeOk] at h
  | some v => simp [objHas, h₀]

theorem dateRangeOk_objHas (kvs : List (String × Json))
    (h : dateRangeOk ((objGet kvs "date_range").getD .null) = true) :
    objHas kvs "date_range" = true := by
  cases h₀ : objGet kvs "date_range" with
  | none => rw [h₀] at h; simp [dateRangeOk] at h
  | some v => simp [objHas, h₀]

theorem fixType_typeOk (kvs : List (String × Json)) :
    typeOk ((objGet (fixType kvs) "schedule_type").getD .null) = true := by
  unfold fixType
  split
  · assumption
  · rw [objGet_objSet_self]
    decide

theorem objGet_fixType_ne (kvs : List (String × Json)) (k : String)
    (h : k ≠ "schedule_type") : objGet (fixType kvs) k = objGet kvs k := by
  unfold fixType
  split
  · rfl
  · exact objGet_objSet_ne _ _ _ _ (Ne.symm h)

theorem fixRange_dateRangeOk (today tomorrow : String) (kvs : List (String × Json)) :
    dateRangeOk ((objGet (fixRange today tomorrow kvs) "date_range").getD .null) = true := by
  unfold fixRange
  split
  · assumption
  · rw [objGet_objSet_self]
    simp [defaultDateRange, dateRangeOk, objHas, objGet]

theorem objGet_fixRange_ne (today tomorrow : String) (kvs : List (String × Json)) (k : String)
    (h : k ≠ "date_range") : objGet (fixRange today tomorrow kvs) k = objGet kvs k := by
  unfold fixRange
  split
  · rfl
  · exact objGet_objSet_ne _ _ _ _ (Ne.symm h)

theorem objGet_repairEvents_self (today : String) (kvs : List (String × Json)) :
    objGet (repairEvents today kvs) "events" =
      some (.arr ((eventsOf kvs).filterMap (validateEvent today))) :=
  objGet_objSet_self _ _ _

theorem objGet_repairEvents_ne (today : String) (kvs : List (String × Json)) (k : String)
    (h : k ≠ "events") : objGet (repairEvents today kvs) k = objGet kvs k :=
  objGet_objSet_ne _ _ _ _ (Ne.symm h)

theorem objGet_fixSuggestions_arr (kvs : List (String × Json)) :
    ∃ ss, objGet (fixSuggestions kvs) "suggestions" = some (.arr ss) := by
  unfold fixSuggestions
  split
  · next h => exact ⟨_, h⟩
  · exact ⟨[], objGet_objSet_self _ _ _⟩

theorem objGet_fixSuggestions_ne (kvs : List (String × Json)) (k : String)
    (h : k ≠ "suggestions") : objGet (fixSuggestions kvs) k = objGet kvs k := by
  unfold fixSuggestions
  split
  · rfl
  · exact objGet_objSet_ne _ _ _ _ (Ne.symm h)

/-- Key `k` of `kvs` holds a string value. -/
def isStrField (kvs : List (String × Json)) (k : String) : Bool :=
  match objGet kvs k with
  | some (.str _) => true
  | _ => false

/-- A fully-defaulted event mapping per the §3 data model: the five
text fields are strings and category/priority are strings drawn from
their enumerations. -/
def conformsEvent : Json → Bool
  | .obj kvs =>
    isStrField kvs "title" && isStrField kvs "description" &&
    isStrField kvs "start_time" && isStrField kvs "end_time" &&
    isStrField kvs "date" &&
    (match objGet kvs "category" with
     | some (.str c) => validCategories.contains c
     | _ => false) &&
    (match objGet kvs "priority" with
     | some (.str p) => validPriorities.contains p
     | _ => false)
  | _ => false

/-- A Schedule per the §3 data model as repaired by the Validator:
valid `schedule_type`, a `date_range` mapping with both bounds, a
sequence of fully-defaulted event mappings, and a `suggestions`
sequence. -/
def conformsSchedule (kvs : List (String × Json)) : Bool :=
  typeOk ((objGet kvs "schedule_type").getD .null) &&
  dateRangeOk ((objGet kvs "date_range").getD .null) &&
  (match objGet kvs "events" with
   | some (.arr es) => es.all conformsEvent
   | _ => false) &&
  (match objGet kvs "suggestions" with
   | some (.arr _) => true
   | _ => false)

theorem contains_ite_category (c : String) :
    validCategories.contains (if validCategories.contains c then c else "personal") = true := by
  by_cases h : validCategories.contains c = true
  · rw [if_pos h]
    exact h
  · rw [if_neg h]
    decide

theorem contains_ite_priority (p : String) :
    validPriorities.contains (if validPriorities.contains p then p else "medium") = true := by
  by_cases h : validPriorities.contains p = true
  · rw [if_pos h]
    exact h
  · rw [if_neg h]
    decide

theorem conformsEvent_mk (ti d st et da c p : String) :
    conformsEvent (mkValidatedEvent ti d st et da c p) =
      (validCategories.contains c && validPriorities.contains p) := by
  simp [conformsEvent, mkValidatedEvent, isStrField, objGet]

theorem validateEvent_conforms (today : String) (e v : Json)
    (h : validateEvent today e = some v) : conformsEvent v = true := by
  cases e with
  | obj kvs =>
    simp only [validateEvent] at h
    by_cases h₁ : objHas kvs "title" = true
    · rw [if_pos h₁] at h
      obtain rfl := Option.some.inj h
      rw [conformsEvent_mk, contains_ite_category, contains_ite_priority]
      rfl
    · rw [if_neg h₁] at h
      exact absurd h (by simp)
  | null => exact absurd h (by simp [validateEvent])
  | bool b => exact absurd h (by simp [validateEvent])
  | num n => exact absurd h (by simp [validateEvent])
  | str s => exact absurd h (by simp [validateEvent])
  | arr xs => exact absurd h (by simp [validateEvent])

theorem eventField_of_objGet (kvs : List (String × Json)) (k dflt s : String)
    (h : objGet kvs k = some (.str s)) : eventField kvs k dflt = s := by
  simp [eventField, h, pyStr]

theorem validateEvent_mk_fixpoint (today ti d st et da c p : String)
    (hc : validCategories.contains c = true) (hp : validPriorities.contains p = true) :
    validateEvent today (mkValidatedEvent ti d st et da c p) =
      some (mkValidatedEvent ti d st et da c p) := by
  have gt : objGet [("title", Json.str ti), ("description", Json.str d),
      ("start_time", Json.str st), ("end_time", Json.str et), ("date", Json.str da),
      ("category", Json.str c), ("priority", Json.str p)] "title" = some (.str ti) := by
    simp [objGet]
  have gd : objGet [("title", Json.str ti), ("description", Json.str d),
      ("start_time", Json.str st), ("end_time", Json.str et), ("date", Json.str da),
      ("category", Json.str c), ("priority", Json.str p)] "description" = some (.str d) := by
    simp [objGet]
  have gs : objGet [("title", Json.str ti), ("description", Json.str d),
      ("start_time", Json.str st), ("end_time", Json.str et), ("date", Json.str da),
      ("category", Json.str c), ("priority", Json.str p)] "start_time" = some (.str st) := by
    simp [objGet]
  have ge : objGet [("title", Json.str ti), ("description", Json.str d),
      ("start_time", Json.str st), ("end_time", Json.str et), ("date", Json.str da),
      ("category", Json.str c), ("priority", Json.str p)] "end_time" = some (.str et) := by
    simp [objGet]
  have ga : objGet [("title", Json.str ti), ("description", Json.str d),
      ("start_time", Json.str st), ("end_time", Json.str et), ("date", Json.str da),
      ("category", Json.str c), ("priority", Json.str p)] "date" = some (.str da) := by
    simp [objGet]
  have gc : objGet [("title", Json.str ti), ("description", Json.str d),
      ("start_time", Json.str st), ("end_time", Json.str et), ("date", Json.str da),
      ("category", Json.str c), ("priority", Json.str p)] "category" = some (.str c) := by
    simp [objGet]
  have gp : objGet [("title", Json.str ti), ("description", Json.str d),
      ("start_time", Json.str st), ("end_time", Json.str et), ("date", Json.str da),
      ("category", Json.str c), ("priority", Json.str p)] "priority" = some (.str p) := by
    simp [objGet]
  simp only [validateEvent, mkValidatedEvent]
  rw [if_pos (by simp [objHas, gt])]
  rw [eventField_of_objGet _ _ _ _ gt, eventField_of_objGet _ _ _ _ gd,
    eventField_of_objGet _ _ _ _ gs, eventField_of_objGet _ _ _ _ ge,
    eventField_of_objGet _ _ _ _ ga, eventField_of_objGet _ _ _ _ gc,
    eventField_of_objGet _ _ _ _ gp, if_pos hc, if_pos hp]

theorem validateEvent_fixpoint (today : String) (e v : Json)
    (h : validateEvent today e = some v) : validateEvent today v = some v := by
  cases e with
  | obj kvs =>
    simp only [validateEvent] at h
    by_cases h₁ : objHas kvs "title" = true
    · rw [if_pos h₁] at h
      obtain rfl := Option.some.inj h
      exact validateEvent_mk_fixpoint _ _ _ _ _ _ _ _
        (contains_ite_category _) (contains_ite_priority _)
    · rw [if_neg h₁] at h
      exact absurd h (by simp)
  | null => exact absurd h (by simp [validateEvent])
  | bool b => exact absurd h (by simp [validateEvent])
  | num n => exact absurd h (by simp [validateEvent])
  | str s => exact absurd h (by simp [validateEvent])
  | arr xs => exact absurd h (by simp [validateEvent])

theorem filterMap_validateEvent_fixpoint (today : String) (l : List Json) :
    (l.filterMap (validateEvent today)).filterMap (validateEvent today) =
      l.filterMap (validateEvent today) := by
  induction l with
  | nil => rfl
  | cons a l ih =>
    cases h : validateEvent today a with
    | none => simp [List.filterMap_cons, h, ih]
    | some v =>
      simp [List.filterMap_cons, h, validateEvent_fixpoint today a v h, ih]

/-! ### Remaining pipeline-stage lemmas -/

theorem objGet_fixEventsList_ne (kvs : List (String × Json)) (k : String)
    (h : k ≠ "events") : objGet (fixEventsList kvs) k = objGet kvs k := by
  unfold fixEventsList
  split
  · rfl
  all_goals exact objGet_objSet_ne _ _ _ _ (Ne.symm h)

theorem objGet_fillType_ne (kvs : List (String × Json)) (k : String)
    (h : k ≠ "schedule_type") : objGet (fillType kvs) k = objGet kvs k := by
  unfold fillType
  split
  · rfl
  · exact objGet_objSet_ne _ _ _ _ (Ne.symm h)

theorem objGet_fillRange_ne (today tomorrow : String) (kvs : List (String × Json)) (k : String)
    (h : k ≠ "date_range") : objGet (fillRange today tomorrow kvs) k = objGet kvs k := by
  unfold fillRange
  split
  · rfl
  · exact objGet_objSet_ne _ _ _ _ (Ne.symm h)

theorem objGet_fillEvents_ne (kvs : List (String × Json)) (k : String)
    (h : k ≠ "events") : objGet (fillEvents kvs) k = objGet kvs k := by
  unfold fillEvents
  split
  · rfl
  · exact objGet_objSet_ne _ _ _ _ (Ne.symm h)

theorem objGet_fillMissing_ne (today tomorrow : String) (kvs : List (String × Json))
    (k : String) (h₁ : k ≠ "schedule_type") (h₂ : k ≠ "date_range") (h₃ : k ≠ "events") :
    objGet (fillMissing today tomorrow kvs) k = objGet kvs k := by
  unfold fillMissing
  rw [objGet_fillEvents_ne _ _ h₃, objGet_fillRange_ne _ _ _ _ h₂, objGet_fillType_ne _ _ h₁]

theorem objGet_fillMissing_events (today tomorrow : String) (kvs : List (String × Json))
    (v : Json) (h : objGet kvs "events" = some v) :
    objGet (fillMissing today tomorrow kvs) "events" = some v := by
  have h₂ : objGet (fillRange today tomorrow (fillType kvs)) "events" = some v := by
    rw [objGet_fillRange_ne _ _ _ _ (by decide), objGet_fillType_ne _ _ (by decide)]
    exact h
  unfold fillMissing fillEvents
  rw [if_pos (by simp [objHas, h₂])]
  exact h₂

/-- The repaired association list produced by
`_validate_schedule_response` on a dict input. -/
def repairedKvs (today tomorrow : String) (kvs : List (String × Json)) :
    List (String × Json) :=
  fixSuggestions (repairEvents today
    (fixEventsList (fixRange today tomorrow (fixType (fillMissing today tomorrow kvs)))))

theorem validate_obj_eq (today tomorrow : String) (kvs : List (String × Json)) :
    validateScheduleResponse today tomorrow (.obj kvs) =
      some (.obj (repairedKvs today tomorrow kvs)) := rfl

theorem repairedKvs_scheduleType (today tomorrow : String) (kvs : List (String × Json)) :
    typeOk ((objGet (repairedKvs today tomorrow kvs) "schedule_type").getD .null) = true := by
  unfold repairedKvs repairEvents
  rw [objGet_fixSuggestions_ne _ _ (by decide), objGet_objSet_ne _ _ _ _ (by decide),
    objGet_fixEventsList_ne _ _ (by decide), objGet_fixRange_ne _ _ _ _ (by decide)]
  exact fixType_typeOk _

theorem repairedKvs_dateRange (today tomorrow : String) (kvs : List (String × Json)) :
    dateRangeOk ((objGet (repairedKvs today tomorrow kvs) "date_range").getD .null) = true := by
  unfold repairedKvs repairEvents
  rw [objGet_fixSuggestions_ne _ _ (by decide), objGet_objSet_ne _ _ _ _ (by decide),
    objGet_fixEventsList_ne _ _ (by decide)]
  exact fixRange_dateRangeOk _ _ _

theorem repairedKvs_events (today tomorrow : String) (kvs : List (String × Json)) :
    objGet (repairedKvs today tomorrow kvs) "events" =
      some (.arr ((eventsOf (fixEventsList (fixRange today tomorrow
        (fixType (fillMissing today tomorrow kvs))))).filterMap (validateEvent today))) := by
  unfold repairedKvs
  rw [objGet_fixSuggestions_ne _ _ (by decide)]
  exact objGet_repairEvents_self _ _

theorem repairedKvs_suggestions_arr (today tomorrow : String) (kvs : List (String × Json)) :
    ∃ ss, objGet (repairedKvs today tomorrow kvs) "suggestions" = some (.arr ss) :=
  objGet_fixSuggestions_arr _

theorem repairedKvs_conforms (today tomorrow : String) (kvs : List (String × Json)) :
    conformsSchedule (repairedKvs today tomorrow kvs) = true := by
  obtain ⟨ss, hss⟩ := repairedKvs_suggestions_arr today tomorrow kvs
  unfold conformsSchedule
  rw [repairedKvs_scheduleType, repairedKvs_dateRange, repairedKvs_events, hss]
  simp only [Bool.true_and, Bool.and_true]
  rw [List.all_eq_true]
  intro e he
  obtain ⟨a, _, ha⟩ := List.mem_filterMap.mp he
  exact validateEvent_conforms _ _ _ ha

theorem repairedKvs_suggestions (today tomorrow : String) (kvs : List (String × Json)) :
    objGet (repairedKvs today tomorrow kvs) "suggestions" =
      some (.arr (match objGet kvs "suggestions" with
        | some (.arr xs) => xs
        | _ => [])) := by
  have hM : objGet (repairEvents today (fixEventsList (fixRange today tomorrow
      (fixType (fillMissing today tomorrow kvs))))) "suggestions" = objGet kvs "suggestions" := by
    rw [objGet_repairEvents_ne _ _ _ (by decide), objGet_fixEventsList_ne _ _ (by decide),
      objGet_fixRange_ne _ _ _ _ (by decide), objGet_fixType_ne _ _ (by decide),
      objGet_fillMissing_ne _ _ _ _ (by decide) (by decide) (by decide)]
  unfold repairedKvs fixSuggestions
  rw [hM]
  cases hg : objGet kvs "suggestions" with
  | none => exact objGet_objSet_self _ _ _
  | some v =>
    cases v with
    | arr xs => rw [hM, hg]
    | null => exact objGet_objSet_self _ _ _
    | bool b => exact objGet_objSet_self _ _ _
    | num n => exact objGet_objSet_self _ _ _
    | str s => exact objGet_objSet_self _ _ _
    | obj o => exact objGet_objSet_self _ _ _

/-! ### The claim-side event-repair policy (spec §4.3 wording) -/

/-- `str(...)` coercion of a stored field, or the stated default when
the field is absent (spec wording for the field-by-field coercion). -/
def strOrDefault (fields : List (String × Json)) (k dflt : String) : String :=
  match objGet fields k with
  | some v => pyStr v
  | none => dflt

/-- Validate a coerced value against an enumeration, substituting the
stated default when it falls outside it (spec wording). -/
def forceEnum (enum : List String) (s dflt : String) : String :=
  if enum.contains s then s else dflt

/-- The per-element event policy as the spec states it: an element that
is not a mapping or lacks `"title"` is dropped; a retained element is
coerced field-by-field to text with defaults description `""`,
start_time `"09:00"`, end_time `"10:00"`, date today, category checked
against the 5-value enumeration (default `"personal"`), priority
checked against the 3-value enumeration (default `"medium"`). -/
def eventRepairSpec (today : String) (e : Json) : Option Json :=
  match e with
  | .obj fields =>
    match objGet fields "title" with
    | none => none
    | some titleVal =>
      some (.obj
        [("title", .str (pyStr titleVal)),
         ("description", .str (strOrDefault fields "description" "")),
         ("start_time", .str (strOrDefault fields "start_time" "09:00")),
         ("end_time", .str (strOrDefault fields "end_time" "10:00")),
         ("date", .str (strOrDefault fields "date" today)),
         ("category", .str (forceEnum validCategories
            (strOrDefault fields "category" "personal") "personal")),
         ("priority", .str (forceEnum validPriorities
            (strOrDefault fields "priority" "medium") "medium"))])
  | _ => none

theorem eventRepairSpec_eq_validateEvent (today : String) (e : Json) :
    eventRepairSpec today e = validateEvent today e := by
  cases e with
  | obj fields =>
    cases h : objGet fields "title" with
    | none => simp [eventRepairSpec, validateEvent, objHas, h]
    | some tv =>
      simp [eventRepairSpec, validateEvent, objHas, h, mkValidatedEvent,
        strOrDefault, eventField, forceEnum]
  | null => rfl
  | bool b => rfl
  | num n => rfl
  | str s => rfl
  | arr xs => rfl

/-! ### Claims C1, C2, C3, C9: the Schedule Validator -/

/-- C1 counterexample.  The claim quantifies over every JSON-decoded
input value and also demands that the output `suggestions` be a
sequence of strings; both parts fail on the code: on the JSON value
`null` the Python function raises a `TypeError` (modelled `none`)
instead of returning a Schedule, and on the dict
`{"suggestions": [1]}` the returned `suggestions` is `[1]`, which is
not a sequence of strings. -/
theorem validator_contract_counterexample :
    validateScheduleResponse "2025-01-01" "2025-01-02" Json.null = none ∧
    validateScheduleResponse "2025-01-01" "2025-01-02"
        (Json.obj [("suggestions", Json.arr [Json.num 1])]) =
      some (Json.obj [("suggestions", Json.arr [Json.num 1]),
        ("schedule_type", Json.str "custom"),
        ("date_range", Json.obj [("start_date", Json.str "2025-01-01"),
          ("end_date", Json.str "2025-01-02")]),
        ("events", Json.arr [])]) :=
  ⟨rfl, rfl⟩

/-- C1 (amended): for every JSON-decoded mapping, the Schedule
Validator returns, without raising, a Schedule whose `schedule_type` is
in `{daily, weekly, custom}`, whose `date_range` is a mapping with
`start_date` and `end_date`, whose `events` is a sequence of
fully-defaulted event mappings, and whose `suggestions` is a sequence
(its elements are not checked). -/
theorem validator_conforms_on_mappings (today tomorrow : String)
    (kvs : List (String × Json)) :
    ∃ out, validateScheduleResponse today tomorrow (.obj kvs) = some (.obj out) ∧
      conformsSchedule out = true :=
  ⟨repairedKvs today tomorrow kvs, validate_obj_eq today tomorrow kvs,
    repairedKvs_conforms today tomorrow kvs⟩

/-- C2: the Schedule Validator is idempotent: whenever it produces an
output, applying it to that output returns the output unchanged (every
output is a fixed point). -/
theorem validator_idempotent (today tomorrow : String) (x y : Json)
    (h : validateScheduleResponse today tomorrow x = some y) :
    validateScheduleResponse today tomorrow y = some y := by
  cases x with
  | obj kvs =>
    rw [validate_obj_eq] at h
    obtain rfl := Option.some.inj h
    have hty := repairedKvs_scheduleType today tomorrow kvs
    have hdr := repairedKvs_dateRange today tomorrow kvs
    have hev := repairedKvs_events today tomorrow kvs
    obtain ⟨ss, hss⟩ := repairedKvs_suggestions_arr today tomorrow kvs
    set K := repairedKvs today tomorrow kvs with hK
    have e₁ : fillMissing today tomorrow K = K := by
      unfold fillMissing fillEvents fillRange fillType
      rw [if_pos (typeOk_objHas _ hty), if_pos (dateRangeOk_objHas _ hdr),
        if_pos (show objHas K "events" = true by simp [objHas, hev])]
    have e₂ : fixType K = K := by
      unfold fixType
      rw [if_pos hty]
    have e₃ : fixRange today tomorrow K = K := by
      unfold fixRange
      rw [if_pos hdr]
    have e₄ : fixEventsList K = K := by
      unfold fixEventsList
      rw [hev]
      rfl
    have e₅ : repairEvents today K = K := by
      unfold repairEvents
      have hof : eventsOf K = (eventsOf (fixEventsList (fixRange today tomorrow
          (fixType (fillMissing today tomorrow kvs))))).filterMap (validateEvent today) := by
        unfold eventsOf
        rw [hev]
        rfl
      rw [hof, filterMap_validateEvent_fixpoint]
      exact objSet_eq_of_objGet _ _ _ hev
    have e₆ : fixSuggestions K = K := by
      unfold fixSuggestions
      rw [hss]
    rw [validate_obj_eq]
    show some (Json.obj (repairedKvs today tomorrow K)) = some (Json.obj K)
    unfold repairedKvs
    rw [e₁, e₂, e₃, e₄, e₅, e₆]
  | null => simp [validateScheduleResponse] at h
  | bool b => simp [validateScheduleResponse] at h
  | num n => simp [validateScheduleResponse] at h
  | str s => simp [validateScheduleResponse] at h
  | arr xs => simp [validateScheduleResponse] at h

/-- Witness for C2: the Validator run on the repaired output of the
empty dict returns it unchanged. -/
theorem validator_idempotent_witness :
    validateScheduleResponse "2025-01-01" "2025-01-02"
      (Json.obj [("schedule_type", Json.str "custom"),
        ("date_range", Json.obj [("start_date", Json.str "2025-01-01"),
          ("end_date", Json.str "2025-01-02")]),
        ("events", Json.arr []), ("suggestions", Json.arr [])]) =
    some (Json.obj [("schedule_type", Json.str "custom"),
      ("date_range", Json.obj [("start_date", Json.str "2025-01-01"),
        ("end_date", Json.str "2025-01-02")]),
      ("events", Json.arr []), ("suggestions", Json.arr [])]) :=
  validator_idempotent "2025-01-01" "2025-01-02" (Json.obj [])
    (Json.obj [("schedule_type", Json.str "custom"),
      ("date_range", Json.obj [("start_date", Json.str "2025-01-01"),
        ("end_date", Json.str "2025-01-02")]),
      ("events", Json.arr []), ("suggestions", Json.arr [])]) rfl

/-- C3: a non-sequence `events` value is replaced by the empty
sequence; from a sequence, every element that is not a mapping or lacks
`"title"` is dropped and every retained element is coerced
field-by-field per `eventRepairSpec`, so the output has at most as many
events as the input and every output event is fully defaulted (title
and text fields strings, category and priority in their
enumerations). -/
theorem validator_events_spec (today tomorrow : String) (kvs : List (String × Json)) :
    ∃ out, validateScheduleResponse today tomorrow (.obj kvs) = some (.obj out) ∧
      (∀ v, objGet kvs "events" = some v → (∀ xs, v ≠ .arr xs) →
        objGet out "events" = some (.arr [])) ∧
      (∀ xs, objGet kvs "events" = some (.arr xs) →
        objGet out "events" = some (.arr (xs.filterMap (eventRepairSpec today))) ∧
        (xs.filterMap (eventRepairSpec today)).length ≤ xs.length ∧
        ∀ e ∈ xs.filterMap (eventRepairSpec today), conformsEvent e = true) := by
  have hspec : eventRepairSpec today = validateEvent today :=
    funext (eventRepairSpec_eq_validateEvent today)
  refine ⟨repairedKvs today tomorrow kvs, validate_obj_eq _ _ _, ?_, ?_⟩
  · intro v hv hnar
    have hbefore : objGet (fixRange today tomorrow (fixType
        (fillMissing today tomorrow kvs))) "events" = some v := by
      rw [objGet_fixRange_ne _ _ _ _ (by decide), objGet_fixType_ne _ _ (by decide)]
      exact objGet_fillMissing_events _ _ _ _ hv
    have hfix : fixEventsList (fixRange today tomorrow (fixType
        (fillMissing today tomorrow kvs))) =
        objSet (fixRange today tomorrow (fixType (fillMissing today tomorrow kvs)))
          "events" (.arr []) := by
      unfold fixEventsList
      rw [hbefore]
      cases v with
      | arr xs => exact absurd rfl (hnar xs)
      | null => rfl
      | bool b => rfl
      | num n => rfl
      | str s => rfl
      | obj o => rfl
    have heo : eventsOf (fixEventsList (fixRange today tomorrow (fixType
        (fillMissing today tomorrow kvs)))) = [] := by
      rw [hfix]
      unfold eventsOf
      rw [objGet_objSet_self]
      rfl
    rw [repairedKvs_events, heo]
    rfl
  · intro xs hxs
    have hbefore : objGet (fixRange today tomorrow (fixType
        (fillMissing today tomorrow kvs))) "events" = some (.arr xs) := by
      rw [objGet_fixRange_ne _ _ _ _ (by decide), objGet_fixType_ne _ _ (by decide)]
      exact objGet_fillMissing_events _ _ _ _ hxs
    have hfix : fixEventsList (fixRange today tomorrow (fixType
        (fillMissing today tomorrow kvs))) =
        fixRange today tomorrow (fixType (fillMissing today tomorrow kvs)) := by
      unfold fixEventsList
      rw [hbefore]
      rfl
    have heo : eventsOf (fixEventsList (fixRange today tomorrow (fixType
        (fillMissing today tomorrow kvs)))) = xs := by
      rw [hfix]
      unfold eventsOf
      rw [hbefore]
      rfl
    refine ⟨?_, ?_, ?_⟩
    · rw [repairedKvs_events, heo, hspec]
    · rw [hspec]
      exact List.length_filterMap_le _ _
    · intro e he
      rw [hspec] at he
      obtain ⟨a, _, hfa⟩ := List.mem_filterMap.mp he
      exact validateEvent_conforms _ _ _ hfa

/-- Witness for C3: on an events list holding one titled event and one
non-mapping element, the repaired output drops the non-mapping element
and fully defaults the retained one. -/
theorem validator_events_spec_witness :
    ∃ out, validateScheduleResponse "2025-01-01" "2025-01-02"
        (Json.obj [("events", Json.arr
          [Json.obj [("title", Json.str "Standup")], Json.num 3])]) =
        some (Json.obj out) ∧
      objGet out "events" = some (Json.arr
        [mkValidatedEvent "Standup" "" "09:00" "10:00" "2025-01-01" "personal" "medium"]) := by
  obtain ⟨out, hval, -, hlist⟩ := validator_events_spec "2025-01-01" "2025-01-02"
    [("events", Json.arr [Json.obj [("title", Json.str "Standup")], Json.num 3])]
  obtain ⟨heq, -, -⟩ := hlist [Json.obj [("title", Json.str "Standup")], Json.num 3] rfl
  refine ⟨out, hval, ?_⟩
  rw [heq]
  rfl

/-- C9 counterexample: the code only checks that `suggestions` is a
list, never that its elements are strings; on input with
`"suggestions": [true]` (not a sequence of strings) the output keeps
`[true]` instead of the empty sequence. -/
theorem validator_suggestions_counterexample :
    validateScheduleResponse "2025-06-01" "2025-06-02"
        (Json.obj [("schedule_type", Json.str "daily"),
          ("suggestions", Json.arr [Json.bool true])]) =
      some (Json.obj [("schedule_type", Json.str "daily"),
        ("suggestions", Json.arr [Json.bool true]),
        ("date_range", Json.obj [("start_date", Json.str "2025-06-01"),
          ("end_date", Json.str "2025-06-02")]),
        ("events", Json.arr [])]) ∧
    Json.arr [Json.bool true] ≠ Json.arr [] :=
  ⟨rfl, by simp⟩

/-- C9 (amended): a missing or non-list `suggestions` is replaced by
the empty sequence, and a list value is kept verbatim — elements are
not checked — so the output `suggestions` is always a sequence, though
not necessarily of strings. -/
theorem validator_suggestions_list (today tomorrow : String) (kvs : List (String × Json)) :
    ∃ out, validateScheduleResponse today tomorrow (.obj kvs) = some (.obj out) ∧
      objGet out "suggestions" = some (.arr (match objGet kvs "suggestions" with
        | some (.arr xs) => xs
        | _ => [])) :=
  ⟨repairedKvs today tomorrow kvs, validate_obj_eq today tomorrow kvs,
    repairedKvs_suggestions today tomorrow kvs⟩

/-! ### Python container primitives used by the aggregator and orchestrator -/

/-- Substring containment on character lists (Python `needle in s`). -/
def hasSubstring (needle : List Char) : List Char → Bool
  | [] => needle.isEmpty
  | c :: rest => needle.isPrefixOf (c :: rest) || hasSubstring needle rest

/-- Python `needle in container` for a string needle: key membership on
a dict, element equality on a list (a string equals only an equal
string), substring test on a string; `TypeError` (`none`) on `None`,
booleans and numbers. -/
def pyContains (needle : String) : Json → Option Bool
  | .obj kvs => some (objHas kvs needle)
  | .arr xs => some (xs.any fun x => match x with
      | .str s => s == needle
      | _ => false)
  | .str s => some (hasSubstring needle.toList s.toList)
  | _ => none

/-- Python `container[key]` for a string key: dict lookup; `TypeError`
(`none`) on any other container (both `KeyError` and `TypeError` are
caught by the aggregator). -/
def pyGetItem (j : Json) (k : String) : Option Json :=
  match j with
  | .obj kvs => objGet kvs k
  | _ => none

/-- Python `len()`: characters of a string, elements of a list, keys of
a dict; `TypeError` (`none`) otherwise. -/
def pyLen : Json → Option Nat
  | .str s => some s.length
  | .arr xs => some xs.length
  | .obj kvs => some kvs.length
  | _ => none

/-! ### Chat records and the Statistics Aggregator (`app/db/crud.py`) -/

/-- One row of the `chats` table: owner, stored prompt, raw response
text, and the creation timestamp in epoch seconds.  `decoded` carries
the outcome of `json.loads(response)` (`none` for a
`json.JSONDecodeError`); the parser is an external library, so the
decode outcome is carried alongside the raw text it belongs to. -/
structure ChatRec where
  id : Nat
  user_id : Nat
  prompt : String
  response : String
  decoded : Option Json
  created_at : Int
deriving Repr

/-- ASCII lower-casing of a character list. -/
def lowerAscii (l : List Char) : List Char := l.map Char.toLower

/-- Python `strip()`: drop whitespace from both ends (ASCII). -/
def stripChars (l : List Char) : List Char :=
  ((l.dropWhile Char.isWhitespace).reverse.dropWhile Char.isWhitespace).reverse

/-- `ai_response.strip().startswith("\x7b")`. -/
def startsWithBrace (s : String) : Bool :=
  match stripChars s.toList with
  | c :: _ => c == '\x7b'
  | [] => false

/-- The reply text literally begins with `"\x7b"` (no stripping); the
reading of the claim. -/
def beginsWithBrace (s : String) : Bool :=
  match s.toList with
  | c :: _ => c == '\x7b'
  | [] => false

/-- SQLite `LIKE '%pat%'`: ASCII-case-insensitive substring containment
(SQLite folds ASCII case in `LIKE` by default). -/
def sqlLikeContains (text pat : String) : Bool :=
  hasSubstring (lowerAscii pat.toList) (lowerAscii text.toList)

/-- The `total_schedules` query of `get_user_stats`:
`count(*) WHERE user_id = uid AND response LIKE '%"schedule"%'`. -/
def scheduleLikeCount (db : List ChatRec) (uid : Nat) : Nat :=
  ((db.filter fun r => r.user_id == uid).filter
    fun r => sqlLikeContains r.response "\"schedule\"").length

/-- One record inside `_calculate_avg_events`: `some n` when the
decoded response has a `"schedule"` entry whose value has an `"events"`
entry whose `len()` is `n`; `none` when the record is skipped (decode
failure, failed membership test, or a caught
`KeyError`/`TypeError`). -/
def schedEventsLen (r : ChatRec) : Option Nat :=
  match r.decoded with
  | none => none
  | some j =>
    match pyContains "schedule" j with
    | none => none
    | some false => none
    | some true =>
      match pyGetItem j "schedule" with
      | none => none
      | some sched =>
        match pyContains "events" sched with
        | none => none
        | some false => none
        | some true =>
          match pyGetItem sched "events" with
          | none => none
          | some ev => pyLen ev

/-- The `(total_events, schedule_count)` accumulators of
`_calculate_avg_events` over the user's records. -/
def schedStats (db : List ChatRec) (uid : Nat) : Nat × Nat :=
  (db.filter fun r => r.user_id == uid).foldl
    (fun acc r => match schedEventsLen r with
      | some n => (acc.1 + n, acc.2 + 1)
      | none => acc) (0, 0)

/-- `_calculate_avg_events`: total events over schedule count (float
division modelled over the rationals), `0.0` when no schedule was
found. -/
def calculateAvgEvents (db : List ChatRec) (uid : Nat) : Rat :=
  if (schedStats db uid).2 > 0 then
    ((schedStats db uid).1 : Rat) / ((schedStats db uid).2 : Rat)
  else 0

/-- Python `==` on values usable as dict keys (hashables): `True == 1`
and `False == 0` hold across bool/int. -/
def pyHashableEq : Json → Json → Bool
  | .null, .null => true
  | .bool a, .bool b => a == b
  | .bool a, .num m => (if a then (1 : Int) else 0) == m
  | .num n, .bool b => n == (if b then (1 : Int) else 0)
  | .num n, .num m => n == m
  | .str a, .str b => a == b
  | _, _ => false

/-- `category_counts[category] = category_counts.get(category, 0) + 1`
on the insertion-ordered dict. -/
def bumpKey : List (Json × Nat) → Json → List (Json × Nat)
  | [], c => [(c, 1)]
  | (k, n) :: rest, c =>
    if pyHashableEq k c then (k, n + 1) :: rest else (k, n) :: bumpKey rest c

/-- The inner `for event in ...` loop of `_get_category_usage`.
`some counts` ends the record (normally, or through a caught
`TypeError` on an unhashable key, keeping the partial counts); `none`
is an uncaught `AttributeError` (`event.get` on a non-dict element)
that aborts the whole aggregation. -/
def procEvents (counts : List (Json × Nat)) : List Json → Option (List (Json × Nat))
  | [] => some counts
  | e :: rest =>
    match e with
    | .obj fields =>
      match (objGet fields "category").getD (.str "unknown") with
      | .arr _ => some counts
      | .obj _ => some counts
      | cat => procEvents (bumpKey counts cat) rest
    | _ => none

/-- One record of `_get_category_usage`: records that fail decoding or
the membership/subscript steps are skipped by the caught exceptions;
iterating a non-list `events` either raises `TypeError` (caught) or
yields non-dict elements whose `.get` raises an uncaught
`AttributeError` (`none`). -/
def procRecord (counts : List (Json × Nat)) (r : ChatRec) : Option (List (Json × Nat)) :=
  match r.decoded with
  | none => some counts
  | some j =>
    match pyContains "schedule" j with
    | none => some counts
    | some false => some counts
    | some true =>
      match pyGetItem j "schedule" with
      | none => some counts
      | some sched =>
        match pyContains "events" sched with
        | none => some counts
        | some false => some counts
        | some true =>
          match pyGetItem sched "events" with
          | none => some counts
          | some ev =>
            match ev with
            | .arr events => procEvents counts events
            | .str s => if s.isEmpty then some counts else none
            | .obj fields => if fields.isEmpty then some counts else none
            | _ => some counts

/-- `_get_category_usage`: fold the user's records through
`procRecord`; `none` is an uncaught `AttributeError`. -/
def categoryUsage (db : List ChatRec) (uid : Nat) : Option (List (Json × Nat)) :=
  (db.filter fun r => r.user_id == uid).foldlM procRecord []

/-- Python `max(d, key=d.get)`: the first key attaining the maximal
count (later keys replace only on a strictly greater count). -/
def maxByCountGo (k : Json) (n : Nat) : List (Json × Nat) → Json
  | [] => k
  | (k₂, n₂) :: rest =>
    if n₂ > n then maxByCountGo k₂ n₂ rest else maxByCountGo k n rest

/-- `max(category_usage, key=category_usage.get) if category_usage else None`. -/
def maxByCount : List (Json × Nat) → Option Json
  | [] => none
  | (k, n) :: rest => some (maxByCountGo k n rest)

/-- The dictionary returned by `UserCRUD.get_user_stats` for an
existing user (the user row is looked up first; `now` and
`userCreated` are `datetime.utcnow()` and the account creation time in
epoch seconds, so `account_age_days` is the floored day difference of
the `timedelta`). -/
structure UserStatsOut where
  total_chats : Nat
  total_schedules : Nat
  account_age_days : Int
  last_activity : Option Int
  most_used_category : Option Json
  category_usage : List (Json × Nat)
  average_events_per_schedule : Rat
deriving Repr

/-- `UserCRUD.get_user_stats` (existing user): `none` when the
category-usage scan raises an uncaught `AttributeError`. -/
def getUserStats (db : List ChatRec) (uid : Nat) (now userCreated : Int) :
    Option UserStatsOut :=
  match categoryUsage db uid with
  | none => none
  | some usage =>
    some {
      total_chats := (db.filter fun r => r.user_id == uid).length,
      total_schedules := scheduleLikeCount db uid,
      account_age_days := (now - userCreated).fdiv 86400,
      last_activity := ((db.filter fun r => r.user_id == uid).map
        (fun r => r.created_at)).max?,
      most_used_category := maxByCount usage,
      category_usage := usage,
      average_events_per_schedule := calculateAvgEvents db uid }

/-! ### Chat CRUD reads and deletion (`crud.py`, `api/chat.py`) -/

/-- `ChatCRUD.get_chat_by_id`: `SELECT .. WHERE id = chat_id AND
user_id = user_id`, `scalar_one_or_none` (ids are unique). -/
def get_chat_by_id (db : List ChatRec) (chat_id user_id : Nat) : Option ChatRec :=
  db.find? fun r => r.id == chat_id && r.user_id == user_id

/-- An HTTP error raised by an endpoint (`HTTPException`). -/
structure HttpError where
  status : Nat
  detail : String
deriving Repr, DecidableEq

/-- The detail of the 404 raised by `DELETE /chat/history/{chat_id}`. -/
def notFoundDetail : String :=
  "Chat not found or you don\x27t have permission to delete it"

/-- `DELETE /chat/history/{chat_id}` (`delete_chat` in `api/chat.py`):
select by id and owner; 404 when absent, otherwise delete the row by
primary key and report success. -/
def deleteChatEndpoint (db : List ChatRec) (chat_id user_id : Nat) :
    Except HttpError String × List ChatRec :=
  match db.find? fun r => r.id == chat_id && r.user_id == user_id with
  | none => (.error ⟨404, notFoundDetail⟩, db)
  | some _ => (.ok "Chat deleted successfully", db.filter fun r => !(r.id == chat_id))

/-- `ChatCRUD.get_user_chats`: filter by owner, order by `created_at`
descending, `LIMIT limit OFFSET offset` (skip `offset`, then return at
most `limit`). -/
def get_user_chats (db : List ChatRec) (user_id limit offset : Nat) : List ChatRec :=
  ((((db.filter fun r => r.user_id == user_id).mergeSort
      (fun a b => decide (b.created_at ≤ a.created_at))).drop offset).take limit)

/-! ### The Chat Orchestrator (`chat_with_user`) and `POST /chat/` -/

/-- The keyword vocabulary of `_is_scheduling_request`. -/
def schedulingKeywords : List String :=
  ["schedule", "plan", "organize", "time", "calendar", "agenda",
   "routine", "timetable", "arrange", "allocate", "block",
   "morning", "afternoon", "evening", "today", "tomorrow",
   "week", "day", "hour", "minute", "appointment", "meeting"]

/-- `_is_scheduling_request`: any keyword occurs in the lower-cased
prompt (`.lower()` modelled ASCII-only). -/
def isSchedulingRequest (prompt : String) : Bool :=
  schedulingKeywords.any fun k => hasSubstring k.toList (lowerAscii prompt.toList)

/-- The claim-relevant fields of the dict returned by `chat_with_user`
(`conversation_id`, `model_used` and `timestamp` are a fresh clock
value and the fixed model name, read at return time; they are not
modelled). -/
structure ChatOut where
  success : Bool
  message : Json
  schedule : Option Json
deriving Repr

/-- `chat_with_user` after the completion call produced the reply text
`aiResponse`; `loads` is the outcome of `json.loads(aiResponse)`
(external library), `none` standing for `JSONDecodeError`, which the
code swallows.  A `TypeError` from `in` on a non-container parse
result, or from `_validate_schedule_response` on a non-dict one,
escapes to the outer handler and fails the call (`"Chat failed"`).
Python `strip` is modelled over ASCII whitespace. -/
def chat_with_user (today tomorrow prompt aiResponse : String) (loads : Option Json) :
    Except String ChatOut :=
  if isSchedulingRequest prompt && startsWithBrace aiResponse then
    match loads with
    | none => .ok ⟨true, .str aiResponse, none⟩
    | some sd =>
      match pyContains "schedule_type" sd with
      | none => .error "Chat failed"
      | some false => .ok ⟨true, .str aiResponse, none⟩
      | some true =>
        match pyContains "events" sd with
        | none => .error "Chat failed"
        | some false => .ok ⟨true, .str aiResponse, none⟩
        | some true =>
          match sd, validateScheduleResponse today tomorrow sd with
          | .obj kvs, some validated =>
            .ok ⟨true, (objGet kvs "message").getD
              (.str "I\x27ve created a schedule for you!"), some validated⟩
          | _, _ => .error "Chat failed"
  else .ok ⟨true, .str aiResponse, none⟩

/-- The whole orchestrator call: an `openai.APIError` from the
completion call (`apiResult = .error e`) is re-raised as a generic
failure; otherwise the reply text is processed by `chat_with_user`. -/
def chatCallOutcome (today tomorrow prompt : String)
    (apiResult : Except String String) (loads : Option Json) : Except String ChatOut :=
  match apiResult with
  | .error e => .error ("OpenAI API error: " ++ e)
  | .ok text => chat_with_user today tomorrow prompt text loads

/-- Python truthiness of a JSON-decoded value. -/
def jsonTruthy : Json → Bool
  | .null => false
  | .bool b => b
  | .num n => n != 0
  | .str s => !s.isEmpty
  | .arr xs => !xs.isEmpty
  | .obj kvs => !kvs.isEmpty

/-- The body of the `POST /chat/` response. -/
structure EndpointResult where
  success : Bool
  message : Json
  schedule : Option Json
deriving Repr

/-- `create_schedule` in `api/chat.py`: call the orchestrator (500 on
any exception), check the success flag, extract a truthy schedule, and
persist via `ChatCRUD.create_chat` before replying.  The second
component lists the `create_chat` calls performed, as
`(user_id, prompt.strip(), result)` triples (the result is serialized
with `json.dumps` at that boundary). -/
def create_schedule (uid : Nat) (prompt : String) (aiOutcome : Except String ChatOut) :
    Except HttpError EndpointResult × List (Nat × String × ChatOut) :=
  match aiOutcome with
  | .error e => (.error ⟨500, "Failed to generate schedule: " ++ e⟩, [])
  | .ok r =>
    if !r.success then
      (.error ⟨500, "Failed to get response from AI service"⟩, [])
    else
      (.ok ⟨true, r.message,
        match r.schedule with
        | some j => if jsonTruthy j then some j else none
        | none => none⟩,
       [(uid, prompt.trim, r)])

/-- The result of an orchestrator call carries a schedule. -/
def carriesSchedule : Except String ChatOut → Bool
  | .ok r => r.schedule.isSome
  | .error _ => false

/-! ### Claims C4, C5: the Statistics Aggregator -/

/-- The count described by claim C4, from its words: the user's records
whose response decodes to JSON containing a `"schedule"` key whose
value contains an `"events"` sequence; a record that fails to decode
contributes nothing. -/
def claimScheduleCount (db : List ChatRec) (uid : Nat) : Nat :=
  ((db.filter fun r => r.user_id == uid).filter fun r =>
    match r.decoded with
    | some (.obj kvs) =>
      match objGet kvs "schedule" with
      | some (.obj skvs) =>
        match objGet skvs "events" with
        | some (.arr _) => true
        | _ => false
      | _ => false
    | _ => false).length

/-- C4 counterexample: a record whose response is not JSON at all but
contains the text `"schedule"` is counted by the code (`LIKE` matches
the raw text), while the claim says a decode failure contributes
nothing: the code reports `total_schedules = 1` where the claim
demands 0. -/
theorem stats_total_schedules_counterexample :
    (getUserStats [⟨1, 1, "hi", "I was told my \"schedule\" is full", none, 100⟩]
        1 86400 0).map (fun s => s.total_schedules) = some 1 ∧
    claimScheduleCount [⟨1, 1, "hi", "I was told my \"schedule\" is full", none, 100⟩] 1 = 0 :=
  ⟨rfl, rfl⟩

/-- C4 (amended): `total_schedules` equals the number of the user's
chat records whose raw response text contains the substring
`"schedule"` (SQL `LIKE '%"schedule"%'`, ASCII-case-insensitive); no
JSON decoding is involved in this count. -/
theorem stats_total_schedules_like (db : List ChatRec) (uid : Nat) (now uc : Int)
    (s : UserStatsOut) (h : getUserStats db uid now uc = some s) :
    s.total_schedules = ((db.filter fun r => r.user_id == uid).filter
      fun r => sqlLikeContains r.response "\"schedule\"").length := by
  unfold getUserStats at h
  cases hc : categoryUsage db uid with
  | none =>
    rw [hc] at h
    exact absurd h (by simp)
  | some usage =>
    rw [hc] at h
    obtain rfl := Option.some.inj h
    rfl

/-- Witness for C4 (amended) at the empty table. -/
theorem stats_total_schedules_like_witness :
    (⟨0, 0, 0, none, none, [], 0⟩ : UserStatsOut).total_schedules =
      ((([] : List ChatRec).filter fun r => r.user_id == 0).filter
        fun r => sqlLikeContains r.response "\"schedule\"").length :=
  stats_total_schedules_like [] 0 0 0 ⟨0, 0, 0, none, none, [], 0⟩ rfl

/-- Total `len(events)` accumulated by `_calculate_avg_events` over a
record list. -/
def totalEventsL (l : List ChatRec) : Nat :=
  (l.map fun r => (schedEventsLen r).getD 0).sum

/-- The number of records in which `_calculate_avg_events` finds a
schedule. -/
def scheduleCountL (l : List ChatRec) : Nat :=
  (l.filter fun r => (schedEventsLen r).isSome).length

theorem schedStats_foldl (l : List ChatRec) (a b : Nat) :
    l.foldl (fun acc r => match schedEventsLen r with
      | some n => (acc.1 + n, acc.2 + 1)
      | none => acc) (a, b) = (a + totalEventsL l, b + scheduleCountL l) := by
  induction l generalizing a b with
  | nil => simp [totalEventsL, scheduleCountL]
  | cons r l ih =>
    cases h : schedEventsLen r with
    | none =>
      simp only [List.foldl_cons, h]
      rw [ih]
      simp [totalEventsL, scheduleCountL, h]
    | some n =>
      simp only [List.foldl_cons, h]
      rw [ih]
      simp [totalEventsL, scheduleCountL, h, Prod.ext_iff]
      omega

theorem schedStats_eq (db : List ChatRec) (uid : Nat) :
    schedStats db uid =
      (totalEventsL (db.filter fun r => r.user_id == uid),
       scheduleCountL (db.filter fun r => r.user_id == uid)) := by
  unfold schedStats
  rw [schedStats_foldl]
  simp

/-- C5: a user with zero chat records gets `total_chats = 0`,
`total_schedules = 0`, `average_events_per_schedule = 0.0` and no
most-used category; and in general the average is the accumulated
event total over the schedule count when that count is positive, and
`0.0` otherwise (the division by zero is guarded). -/
theorem stats_empty_and_avg_guard (db : List ChatRec) (uid : Nat) (now uc : Int) :
    ((db.filter fun r => r.user_id == uid) = [] →
      getUserStats db uid now uc = some
        { total_chats := 0, total_schedules := 0,
          account_age_days := (now - uc).fdiv 86400, last_activity := none,
          most_used_category := none, category_usage := [],
          average_events_per_schedule := 0 }) ∧
    calculateAvgEvents db uid =
      (if 0 < scheduleCountL (db.filter fun r => r.user_id == uid) then
        (totalEventsL (db.filter fun r => r.user_id == uid) : Rat) /
          (scheduleCountL (db.filter fun r => r.user_id == uid) : Rat)
      else 0) := by
  constructor
  · intro h
    unfold getUserStats categoryUsage scheduleLikeCount calculateAvgEvents schedStats
    rw [h]
    rfl
  · unfold calculateAvgEvents
    rw [schedStats_eq]

/-- Witness for C5 at the empty table. -/
theorem stats_empty_and_avg_guard_witness :
    getUserStats [] 5 86400 0 = some
      { total_chats := 0, total_schedules := 0,
        account_age_days := ((86400 : Int) - 0).fdiv 86400, last_activity := none,
        most_used_category := none, category_usage := [],
        average_events_per_schedule := 0 } :=
  (stats_empty_and_avg_guard [] 5 86400 0).1 rfl

/-! ### Claim C7: transport failure of the model call -/

/-- C7: when the completion call raises a transport/provider error, the
endpoint fails as a single opaque 500 (one attempt, no partial result)
and performs no `create_chat` persistence: no ChatRecord is created. -/
theorem transport_error_no_persistence (uid : Nat) (prompt te today tomorrow : String)
    (loads : Option Json) :
    create_schedule uid prompt
        (chatCallOutcome today tomorrow prompt (.error te) loads) =
      (.error ⟨500, "Failed to generate schedule: OpenAI API error: " ++ te⟩, []) := rfl

/-! ### Claim C8: ownership isolation on chat access and deletion -/

/-- C8: a chat is returned or deleted only when its owner is the
requester, and a nonexistent id and an id owned by another user
produce the identical 404 outcome with the table unchanged. -/
theorem chat_ownership_isolation (db : List ChatRec) (cid uid : Nat) :
    (∀ r, get_chat_by_id db cid uid = some r → r.user_id = uid ∧ r.id = cid) ∧
    (∀ msg db₂, deleteChatEndpoint db cid uid = (.ok msg, db₂) →
      (∃ r ∈ db, r.id = cid ∧ r.user_id = uid) ∧
        db₂ = db.filter fun r => !(r.id == cid)) ∧
    ((∀ r ∈ db, r.id = cid → r.user_id ≠ uid) →
      deleteChatEndpoint db cid uid = (.error ⟨404, notFoundDetail⟩, db)) := by
  refine ⟨?_, ?_, ?_⟩
  · intro r h
    have hp := List.find?_some h
    simp only [Bool.and_eq_true, beq_iff_eq] at hp
    exact ⟨hp.2, hp.1⟩
  · intro msg db₂ h
    unfold deleteChatEndpoint at h
    cases hf : db.find? fun r => r.id == cid && r.user_id == uid with
    | none =>
      rw [hf] at h
      exact absurd h (by simp)
    | some r =>
      rw [hf] at h
      have hp := List.find?_some hf
      have hm := List.mem_of_find?_eq_some hf
      simp only [Bool.and_eq_true, beq_iff_eq] at hp
      simp only [Prod.mk.injEq] at h
      exact ⟨⟨r, hm, hp.1, hp.2⟩, h.2.symm⟩
  · intro hno
    unfold deleteChatEndpoint
    have hf : (db.find? fun r => r.id == cid && r.user_id == uid) = none := by
      rw [List.find?_eq_none]
      intro x hx
      simp only [Bool.and_eq_true, beq_iff_eq, not_and]
      intro hid
      exact hno x hx hid
    rw [hf]

/-- Witness for C8: deleting chat 1, owned by user 7, as user 9 yields
the same 404 as a nonexistent chat and leaves the table unchanged. -/
theorem chat_ownership_isolation_witness :
    deleteChatEndpoint [⟨1, 7, "p", "r", none, 0⟩] 1 9 =
      (.error ⟨404, notFoundDetail⟩, [⟨1, 7, "p", "r", none, 0⟩]) :=
  (chat_ownership_isolation [⟨1, 7, "p", "r", none, 0⟩] 1 9).2.2 (by
    intro r hr hid
    simp only [List.mem_singleton] at hr
    subst hr
    decide)

/-! ### Claim C10: paginated chat history reads -/

/-- C10: `get_user_chats` returns only records owned by the given
user, sorted by `created_at` descending (newest first), and the result
is exactly the window of at most `limit` records obtained after
skipping the first `offset` records of a descending-sorted ordering of
that user's records. -/
theorem get_user_chats_spec (db : List ChatRec) (uid limit offset : Nat) :
    (∀ r ∈ get_user_chats db uid limit offset, r.user_id = uid) ∧
    (get_user_chats db uid limit offset).Pairwise
      (fun a b => b.created_at ≤ a.created_at) ∧
    (get_user_chats db uid limit offset).length ≤ limit ∧
    ∃ sorted : List ChatRec,
      sorted.Perm (db.filter fun r => r.user_id == uid) ∧
      sorted.Pairwise (fun a b => b.created_at ≤ a.created_at) ∧
      get_user_chats db uid limit offset = (sorted.drop offset).take limit := by
  unfold get_user_chats
  have hs := @List.sorted_mergeSort ChatRec
    (fun a b : ChatRec => decide (b.created_at ≤ a.created_at))
    (fun a b c hab hbc => by
      simp only [decide_eq_true_eq] at hab hbc ⊢
      exact le_trans hbc hab)
    (fun a b => by
      simp only [Bool.or_eq_true, decide_eq_true_eq]
      exact Int.le_total b.created_at a.created_at)
    (db.filter fun x => x.user_id == uid)
  refine ⟨?_, ?_, ?_, ?_⟩
  · intro r hr
    have h₁ : r ∈ (db.filter fun x => x.user_id == uid).mergeSort
        (fun a b => decide (b.created_at ≤ a.created_at)) :=
      List.mem_of_mem_drop (List.mem_of_mem_take hr)
    have h₂ : r ∈ db.filter fun x => x.user_id == uid :=
      (List.mergeSort_perm _ _).mem_iff.mp h₁
    have h₃ := List.of_mem_filter h₂
    simpa using h₃
  · have hsub : ((((db.filter fun x => x.user_id == uid).mergeSort
        (fun a b => decide (b.created_at ≤ a.created_at))).drop offset).take limit).Sublist
        ((db.filter fun x => x.user_id == uid).mergeSort
          (fun a b => decide (b.created_at ≤ a.created_at))) :=
      (List.take_sublist _ _).trans (List.drop_sublist _ _)
    exact (List.Pairwise.sublist hsub hs).imp fun h => by
      simpa using h
  · exact List.length_take_le _ _
  · exact ⟨(db.filter fun x => x.user_id == uid).mergeSort
      (fun a b => decide (b.created_at ≤ a.created_at)),
      List.mergeSort_perm _ _,
      hs.imp fun h => by simpa using h,
      rfl⟩

/-- Witness for C10: with a single owned record, offset 0 returns it
and offset 1 skips it, both read off the windowing conjunct of the
theorem at concrete inputs. -/
theorem get_user_chats_spec_witness :
    get_user_chats [⟨1, 4, "a", "x", none, 10⟩] 4 1 0 = [⟨1, 4, "a", "x", none, 10⟩] ∧
    get_user_chats [⟨1, 4, "a", "x", none, 10⟩] 4 1 1 = [] := by
  constructor
  · obtain ⟨-, -, -, sorted, hperm, -, heq⟩ :=
      get_user_chats_spec [⟨1, 4, "a", "x", none, 10⟩] 4 1 0
    have hfil : (List.filter (fun r => r.user_id == 4)
        ([⟨1, 4, "a", "x", none, 10⟩] : List ChatRec)) = [⟨1, 4, "a", "x", none, 10⟩] := rfl
    rw [hfil] at hperm
    rw [heq, List.perm_singleton.mp hperm]
    rfl
  · obtain ⟨-, -, -, sorted, hperm, -, heq⟩ :=
      get_user_chats_spec [⟨1, 4, "a", "x", none, 10⟩] 4 1 1
    have hfil : (List.filter (fun r => r.user_id == 4)
        ([⟨1, 4, "a", "x", none, 10⟩] : List ChatRec)) = [⟨1, 4, "a", "x", none, 10⟩] := rfl
    rw [hfil] at hperm
    rw [heq, List.perm_singleton.mp hperm]
    rfl

/-! ### Claim C6: when the orchestrator result carries a Schedule -/

/-- C6 counterexample: the code tests
`ai_response.strip().startswith("\x7b")`, so a reply with leading
whitespace still carries a Schedule although the reply text does not
begin with `"\x7b"` as the claim states. -/
theorem chat_schedule_counterexample :
    carriesSchedule (chat_with_user "2025-01-01" "2025-01-02" "plan my day"
      " \x7b\"schedule_type\": \"daily\", \"events\": []\x7d"
      (some (Json.obj [("schedule_type", Json.str "daily"),
        ("events", Json.arr [])]))) = true ∧
    beginsWithBrace " \x7b\"schedule_type\": \"daily\", \"events\": []\x7d" = false :=
  ⟨rfl, rfl⟩

/-- C6 (amended): the result carries a Schedule exactly when the
intent is scheduling, the reply begins with `"\x7b"` after stripping
surrounding whitespace, the reply parses as JSON, and the parsed object
has both `"schedule_type"` and `"events"` keys; in every other case —
including a swallowed JSON parse failure — the call returns a success
carrying only the plain reply text and no schedule.  (`loads` is the
`json.loads` outcome; text starting with a brace can only parse to a
JSON object, which the hypothesis records.) -/
theorem chat_schedule_iff (today tomorrow prompt aiResponse : String) (loads : Option Json)
    (hobj : ∀ j, loads = some j → ∃ kvs, j = Json.obj kvs) :
    ((∃ r, chat_with_user today tomorrow prompt aiResponse loads = .ok r ∧
        r.schedule.isSome = true) ↔
      (isSchedulingRequest prompt = true ∧ startsWithBrace aiResponse = true ∧
        ∃ kvs, loads = some (.obj kvs) ∧ objHas kvs "schedule_type" = true ∧
          objHas kvs "events" = true)) ∧
    ((¬ (isSchedulingRequest prompt = true ∧ startsWithBrace aiResponse = true ∧
        ∃ kvs, loads = some (.obj kvs) ∧ objHas kvs "schedule_type" = true ∧
          objHas kvs "events" = true)) →
      chat_with_user today tomorrow prompt aiResponse loads =
        .ok ⟨true, .str aiResponse, none⟩) := by
  by_cases hG : (isSchedulingRequest prompt && startsWithBrace aiResponse) = true
  · rw [Bool.and_eq_true] at hG
    obtain ⟨h₁, h₂⟩ := hG
    cases hl : loads with
    | none =>
      have hrun : chat_with_user today tomorrow prompt aiResponse none =
          .ok ⟨true, .str aiResponse, none⟩ := by
        simp [chat_with_user, h₁, h₂]
      refine ⟨⟨?_, ?_⟩, fun _ => hrun⟩
      · rintro ⟨r, hr, hs⟩
        rw [hrun] at hr
        obtain rfl := Except.ok.inj hr
        simp at hs
      · rintro ⟨-, -, kvs, hk, -⟩
        exact Option.noConfusion hk
    | some j =>
      obtain ⟨kvs, rfl⟩ := hobj j hl
      by_cases hst : objHas kvs "schedule_type" = true
      · by_cases hev : objHas kvs "events" = true
        · have hrun : chat_with_user today tomorrow prompt aiResponse (some (.obj kvs)) =
              .ok ⟨true, (objGet kvs "message").getD
                (.str "I\x27ve created a schedule for you!"),
                some (.obj (repairedKvs today tomorrow kvs))⟩ := by
            simp [chat_with_user, h₁, h₂, pyContains, hst, hev,
              validateScheduleResponse, repairedKvs]
          refine ⟨⟨fun _ => ⟨h₁, h₂, kvs, rfl, hst, hev⟩, fun _ => ⟨_, hrun, rfl⟩⟩, ?_⟩
          intro hn
          exact absurd ⟨h₁, h₂, kvs, rfl, hst, hev⟩ hn
        · have hrun : chat_with_user today tomorrow prompt aiResponse (some (.obj kvs)) =
              .ok ⟨true, .str aiResponse, none⟩ := by
            simp [chat_with_user, h₁, h₂, pyContains, hst, hev]
          refine ⟨⟨?_, ?_⟩, fun _ => hrun⟩
          · rintro ⟨r, hr, hs⟩
            rw [hrun] at hr
            obtain rfl := Except.ok.inj hr
            simp at hs
          · rintro ⟨-, -, kvs₂, hk, -, hev₂⟩
            obtain rfl : kvs₂ = kvs := (Json.obj.inj (Option.some.inj hk)).symm
            exact absurd hev₂ hev
      · have hrun : chat_with_user today tomorrow prompt aiResponse (some (.obj kvs)) =
            .ok ⟨true, .str aiResponse, none⟩ := by
          simp [chat_with_user, h₁, h₂, pyContains, hst]
        refine ⟨⟨?_, ?_⟩, fun _ => hrun⟩
        · rintro ⟨r, hr, hs⟩
          rw [hrun] at hr
          obtain rfl := Except.ok.inj hr
          simp at hs
        · rintro ⟨-, -, kvs₂, hk, hst₂, -⟩
          obtain rfl : kvs₂ = kvs := (Json.obj.inj (Option.some.inj hk)).symm
          exact absurd hst₂ hst
  · have hrun : chat_with_user today tomorrow prompt aiResponse loads =
        .ok ⟨true, .str aiResponse, none⟩ := by
      unfold chat_with_user
      rw [if_neg hG]
    refine ⟨⟨?_, ?_⟩, fun _ => hrun⟩
    · rintro ⟨r, hr, hs⟩
      rw [hrun] at hr
      obtain rfl := Except.ok.inj hr
      simp at hs
    · rintro ⟨hh₁, hh₂, -⟩
      exact absurd (by rw [Bool.and_eq_true]; exact ⟨hh₁, hh₂⟩) hG

/-- Witness for C6 (amended): a non-scheduling prompt with a plain
reply yields a success carrying only the text. -/
theorem chat_schedule_iff_witness :
    chat_with_user "2025-01-01" "2025-01-02" "hello" "hi there" none =
      .ok ⟨true, .str "hi there", none⟩ :=
  (chat_schedule_iff "2025-01-01" "2025-01-02" "hello" "hi there" none
    (fun _ h => absurd h (by simp))).2
    (fun hc => absurd hc.1 (by decide))

end MuhsinAI
